import Mathlib

/-!
Verification of the taffy layout engine's core claims against a shallow
embedding of the source. The spec describes the design as unit-agnostic
("a generic scalar (ordered, numeric, copyable) over which all geometry is
parameterized"), so the generic `Unit` scalar is instantiated with the
rationals extended by a single positive infinity (the code's `U::INFINITY`).
The model has no negative infinity and no NaN; operations on the
infinite element follow IEEE where IEEE is defined and sign-free, and the
remaining corner cases (noted inline) are not reached by any theorem below.
-/

namespace Taffy

/-- The unit scalar: a rational number, or the positive infinity the source
reaches through `U::INFINITY`. -/
inductive U where
  | fin : ℚ → U
  | inf : U
deriving DecidableEq, Repr

/-- Zero of the unit scalar. -/
def U.zero : U := .fin 0

/-- Addition; an infinite operand is absorbing, as in IEEE for two
non-negative operands. -/
def U.add : U → U → U
  | .fin a, .fin b => .fin (a + b)
  | _, _ => .inf

instance : Add U := ⟨U.add⟩

/-- Subtraction on finite operands; with an infinite operand the model
returns infinity (IEEE would give minus infinity or NaN for some of these;
no theorem below subtracts from or by an infinite value). -/
def U.sub : U → U → U
  | .fin a, .fin b => .fin (a - b)
  | _, _ => .inf

/-- Multiplication on finite operands; with an infinite operand the model
returns infinity (IEEE would give a signed infinity or NaN; no theorem
below multiplies an infinite value by a concrete factor). -/
def U.mul : U → U → U
  | .fin a, .fin b => .fin (a * b)
  | _, _ => .inf

/-- Division: finite by finite is rational division (division by zero gives
zero, as for rationals; the source divides only by nonzero aspect ratios),
finite by infinite is zero as in IEEE, and an infinite numerator gives
infinity. -/
def U.div : U → U → U
  | .fin a, .fin b => .fin (a / b)
  | .fin _, .inf => .fin 0
  | .inf, _ => .inf

/-- Boolean order test: infinity is the top element. -/
def U.leB : U → U → Bool
  | _, .inf => true
  | .inf, .fin _ => false
  | .fin a, .fin b => decide (a ≤ b)

/-- Boolean strict order test: infinity is the top element. -/
def U.ltB : U → U → Bool
  | .inf, _ => false
  | .fin _, .inf => true
  | .fin a, .fin b => decide (a < b)

/-- The source's `Real::max`; infinity is absorbing (no NaN in the model). -/
def U.max : U → U → U
  | .inf, _ => .inf
  | _, .inf => .inf
  | .fin a, .fin b => .fin (Max.max a b)

/-- The source's `Real::min`; `min x inf = x` as in IEEE. -/
def U.min : U → U → U
  | .inf, y => y
  | x, .inf => x
  | .fin a, .fin b => .fin (Min.min a b)

/-- The `num_traits` sign test used by `CollapsibleMarginSet::from_margin`
and `collapse_with_margin`: for floats it is the sign bit, so zero counts
as positive; in the model, `0 ≤ x`. -/
def U.isPositive (x : U) : Bool := U.leB U.zero x

/-- A width and height pair (geometry.rs `Size`). -/
structure Size (α : Type) where
  width : α
  height : α
deriving DecidableEq, Repr

/-- A 2-dimensional coordinate (geometry.rs `Point`). -/
structure Point (α : Type) where
  x : α
  y : α
deriving DecidableEq, Repr

/-- Four edge values (geometry.rs `Rect`). -/
structure Rect (α : Type) where
  left : α
  right : α
  top : α
  bottom : α
deriving DecidableEq, Repr

instance [Add α] : Add (Rect α) :=
  ⟨fun a b => ⟨a.left + b.left, a.right + b.right, a.top + b.top, a.bottom + b.bottom⟩⟩

instance [Add α] : Add (Size α) :=
  ⟨fun a b => ⟨a.width + b.width, a.height + b.height⟩⟩

/-- Componentwise map on `Size` (geometry.rs). -/
def Size.map (s : Size α) (f : α → β) : Size β := ⟨f s.width, f s.height⟩

/-- Componentwise map on `Point` (geometry.rs). -/
def Point.map (p : Point α) (f : α → β) : Point β := ⟨f p.x, f p.y⟩

/-- Swap the x and y components (geometry.rs `Point::transpose`). -/
def Point.transpose (p : Point α) : Point α := ⟨p.y, p.x⟩

/-- Sum of the left and right edges (geometry.rs `horizontal_axis_sum`). -/
def Rect.horizontal_axis_sum [Add α] (r : Rect α) : α := r.left + r.right

/-- Sum of the top and bottom edges (geometry.rs `vertical_axis_sum`). -/
def Rect.vertical_axis_sum [Add α] (r : Rect α) : α := r.top + r.bottom

/-- Both axis sums as a `Size` (geometry.rs `sum_axes`). -/
def Rect.sum_axes [Add α] (r : Rect α) : Size α :=
  ⟨r.horizontal_axis_sum, r.vertical_axis_sum⟩

/-- Componentwise `Option.or` (geometry.rs `Size<Option<T>>::or`). -/
def Size.or (s t : Size (Option α)) : Size (Option α) :=
  ⟨s.width.or t.width, s.height.or t.height⟩

/-- Componentwise `Option::unwrap_or` (geometry.rs `Size<Option<T>>::unwrap_or`). -/
def Size.unwrap_or (s : Size (Option α)) (alt : Size α) : Size α :=
  ⟨s.width.getD alt.width, s.height.getD alt.height⟩

/-- Fill a missing axis from the other one using a ratio
(geometry.rs `maybe_apply_aspect_ratio`). -/
def Size.maybe_apply_aspect_ratio (s : Size (Option U)) (ratio : Option U) :
    Size (Option U) :=
  match ratio with
  | some r =>
    match s.width, s.height with
    | some w, none => ⟨some w, some (U.div w r)⟩
    | none, some h => ⟨some (U.mul h r), some h⟩
    | _, _ => s
  | none => s

/-- Modelled from the spec: the util module's `MaybeMath` minimum against
an optional bound is not under src/; per the spec's clamping, a present
bound means take the minimum and an absent bound leaves the value
unchanged. -/
def U.maybe_min (x : U) : Option U → U
  | some y => U.min x y
  | none => x

/-- Modelled from the spec: the util module's `MaybeMath` maximum against
an optional floor (absent floor leaves the value unchanged). -/
def U.maybe_max (x : U) : Option U → U
  | some y => U.max x y
  | none => x

/-- Modelled from the spec: the util module's `MaybeMath` clamp between
optional bounds is not under src/; the value takes the minimum against the
max bound first, then the maximum against the min bound (so a min bound
wins over a smaller max bound, as in CSS). -/
def U.maybe_clamp (x : U) (lo hi : Option U) : U :=
  match lo, hi with
  | some lo, some hi => U.max (U.min x hi) lo
  | some lo, none => U.max x lo
  | none, some hi => U.min x hi
  | none, none => x

/-- Modelled from the spec: the componentwise `MaybeMath` clamp of a
`Size` between optional bounds (the util module is not under src/). -/
def Size.maybe_clamp (s : Size U) (lo hi : Size (Option U)) : Size U :=
  ⟨U.maybe_clamp s.width lo.width hi.width, U.maybe_clamp s.height lo.height hi.height⟩

/-- Modelled from the spec: the componentwise `MaybeMath` maximum of a
`Size` against optional floors (the util module is not under src/). -/
def Size.maybe_max (s : Size U) (other : Size (Option U)) : Size U :=
  ⟨U.maybe_max s.width other.width, U.maybe_max s.height other.height⟩

/-- A length or a percentage of a context size (style/dimension.rs). -/
inductive LengthPercentage where
  | Length : U → LengthPercentage
  | Percent : U → LengthPercentage
deriving DecidableEq, Repr

/-- A length, a percentage, or automatic (style/dimension.rs `Dimension`). -/
inductive Dimension where
  | Length : U → Dimension
  | Percent : U → Dimension
  | Auto : Dimension
deriving DecidableEq, Repr

/-- The tri-state available space (style/dimension.rs `AvailableSpace`). -/
inductive AvailableSpace where
  | Definite : U → AvailableSpace
  | MinContent : AvailableSpace
  | MaxContent : AvailableSpace
deriving DecidableEq, Repr

/-- Replace the space by a definite value when one is supplied
(style/dimension.rs `AvailableSpace::maybe_set`). -/
def AvailableSpace.maybe_set : AvailableSpace → Option U → AvailableSpace
  | _, some v => .Definite v
  | s, none => s

/-- Map over the definite value only (style/dimension.rs
`AvailableSpace::map_definite_value`). -/
def AvailableSpace.map_definite_value : AvailableSpace → (U → U) → AvailableSpace
  | .Definite v, f => .Definite (f v)
  | s, _ => s

/-- Componentwise `maybe_set` on a size of available spaces. -/
def Size.maybe_set (s : Size AvailableSpace) (v : Size (Option U)) :
    Size AvailableSpace :=
  ⟨s.width.maybe_set v.width, s.height.maybe_set v.height⟩

/-- Modelled from the spec: the util module's `MaybeResolve` for a
`Dimension` is not under src/; a length resolves to itself, a percentage
needs a context unit and resolves to the fraction of it, and auto resolves
to nothing — mirroring src's `resolve_to_option` for the auto variants. -/
def Dimension.maybe_resolve : Dimension → Option U → Option U
  | .Length l, _ => some l
  | .Percent p, ctx => ctx.map fun c => U.mul c p
  | .Auto, _ => none

/-- Modelled from the spec: the util module's `MaybeResolve` for a size of
dimensions, resolving each axis against the matching context axis. -/
def Size.maybe_resolve (s : Size Dimension) (ctx : Size (Option U)) :
    Size (Option U) :=
  ⟨s.width.maybe_resolve ctx.width, s.height.maybe_resolve ctx.height⟩

/-- Modelled from the spec: the util module's `ResolveOrZero` for a
`LengthPercentage` is not under src/; it resolves against an optional
context, percentages falling back to zero without a context, as the spec's
padding and border resolution requires. -/
def LengthPercentage.resolve_or_zero : LengthPercentage → Option U → U
  | .Length l, _ => l
  | .Percent p, some c => U.mul c p
  | .Percent _, none => U.zero

/-- Resolve all four edges of a rect of length-percentages against the same
context, as the leaf resolver does with the parent width. -/
def Rect.resolve_or_zero (r : Rect LengthPercentage) (ctx : Option U) : Rect U :=
  ⟨r.left.resolve_or_zero ctx, r.right.resolve_or_zero ctx,
   r.top.resolve_or_zero ctx, r.bottom.resolve_or_zero ctx⟩

/-- Modelled from the spec: the display mode of a node (the style module
is not under src/); the spec's closed set of layout modes is block,
flexbox, grid, and the non-rendering mode. -/
inductive Display where
  | Block : Display
  | Flex : Display
  | Grid : Display
  | None : Display
deriving DecidableEq, Repr

/-- Modelled from the spec: the position scheme (the style module is not
under src/); the spec distinguishes absolute positioning as a style that
prevents margin collapse. -/
inductive Position where
  | Relative : Position
  | Absolute : Position
deriving DecidableEq, Repr

/-- Modelled from the spec: overflow handling per axis (the style module
is not under src/); `Scroll` reserves scrollbar gutter space, and being a
scroll container prevents margin collapse. -/
inductive Overflow where
  | Visible : Overflow
  | Hidden : Overflow
  | Scroll : Overflow
deriving DecidableEq, Repr

/-- Modelled from the spec: whether the axis makes the node a scroll
container (the style module is not under src/); every overflow mode other
than plain visible overflow establishes a scroll container. -/
def Overflow.is_scroll_container : Overflow → Bool
  | .Visible => false
  | _ => true

/-- Modelled from the spec: the resolved style fields the leaf resolver
reads (the style module is not under src/); the field set comes from the
spec and from every `style.*` access in compute/leaf.rs. -/
structure Style where
  display : Display
  overflow : Point Overflow
  scrollbar_width : U
  position : Position
  size : Size Dimension
  min_size : Size Dimension
  max_size : Size Dimension
  aspect_ratio : Option U
  padding : Rect LengthPercentage
  border : Rect LengthPercentage
deriving DecidableEq, Repr

/-- The host-supplied measure capability for leaf content
(tree/measure_func.rs `Measurable`): a pure function of the known
dimensions and the available space. -/
structure Measurable where
  measure : Size (Option U) → Size AvailableSpace → Size U

/-- Whether styles should be taken into account (tree/layout.rs `SizingMode`). -/
inductive SizingMode where
  | ContentSize : SizingMode
  | InherentSize : SizingMode
deriving DecidableEq, Repr

/-- Margins available for collapsing (tree/layout.rs `CollapsibleMarginSet`). -/
structure CollapsibleMarginSet where
  positive : U
  negative : U
deriving DecidableEq, Repr

/-- The empty margin set (tree/layout.rs `CollapsibleMarginSet::zero`). -/
def CollapsibleMarginSet.zero : CollapsibleMarginSet := ⟨U.zero, U.zero⟩

/-- Collapse a single margin into the set (tree/layout.rs
`collapse_with_margin`): a positive margin raises the stored positive
maximum, any other margin lowers the stored negative minimum. -/
def CollapsibleMarginSet.collapse_with_margin (s : CollapsibleMarginSet) (margin : U) :
    CollapsibleMarginSet :=
  if U.isPositive margin then { s with positive := U.max s.positive margin }
  else { s with negative := U.min s.negative margin }

/-- Collapse another set into this set (tree/layout.rs `collapse_with_set`). -/
def CollapsibleMarginSet.collapse_with_set (s other : CollapsibleMarginSet) :
    CollapsibleMarginSet :=
  ⟨U.max s.positive other.positive, U.min s.negative other.negative⟩

/-- Resolve the resultant margin (tree/layout.rs `resolve`): the sum of the
stored extremes. -/
def CollapsibleMarginSet.resolve (s : CollapsibleMarginSet) : U :=
  s.positive + s.negative

/-- The rich per-node result of a layout algorithm
(tree/layout.rs `SizeBaselinesAndMargins`). -/
structure SizeBaselinesAndMargins where
  size : Size U
  first_baselines : Point (Option U)
  top_margin : CollapsibleMarginSet
  bottom_margin : CollapsibleMarginSet
  margins_can_collapse_through : Bool
deriving DecidableEq, Repr

/-- The final per-node layout result (tree/layout.rs `Layout`). -/
structure Layout where
  order : ℕ
  size : Size U
  location : Point U
deriving DecidableEq, Repr

/-- A zero layout with the supplied order (tree/layout.rs
`Layout::with_order`): size and location are zero. -/
def Layout.with_order (order : ℕ) : Layout :=
  ⟨order, ⟨U.zero, U.zero⟩, ⟨U.zero, U.zero⟩⟩

/-- Whether a grid track is a real track or a gutter
(grid_track.rs `GridTrackKind`). -/
inductive GridTrackKind where
  | Track : GridTrackKind
  | Gutter : GridTrackKind
deriving DecidableEq, Repr

/-- Modelled from the spec: the minimum track sizing function (the grid
style module is not under src/); the spec's variants are a fixed length or
percentage, the intrinsic keywords, or automatic. -/
inductive MinTrackSizingFunction where
  | Fixed : LengthPercentage → MinTrackSizingFunction
  | MinContent : MinTrackSizingFunction
  | MaxContent : MinTrackSizingFunction
  | Auto : MinTrackSizingFunction
deriving DecidableEq, Repr

/-- Modelled from the spec: the maximum track sizing function (the grid
style module is not under src/); the spec's variants are a fixed length or
percentage, the intrinsic keywords, fit-content with a limit, automatic,
or a flexible fraction. -/
inductive MaxTrackSizingFunction where
  | Fixed : LengthPercentage → MaxTrackSizingFunction
  | MinContent : MaxTrackSizingFunction
  | MaxContent : MaxTrackSizingFunction
  | FitContent : LengthPercentage → MaxTrackSizingFunction
  | Auto : MaxTrackSizingFunction
  | Fraction : U → MaxTrackSizingFunction
deriving DecidableEq, Repr

/-- Modelled from the spec: whether the minimum sizing function is
intrinsic (the grid style module is not under src/); the intrinsic
keywords and automatic sizing are content-derived, a fixed value is not. -/
def MinTrackSizingFunction.is_intrinsic : MinTrackSizingFunction → Bool
  | .Fixed _ => false
  | _ => true

/-- Modelled from the spec: whether the maximum sizing function is
intrinsic (the grid style module is not under src/); everything
content-derived — the intrinsic keywords, automatic sizing and
fit-content — counts, while a fixed value and a flexible fraction do not. -/
def MaxTrackSizingFunction.is_intrinsic : MaxTrackSizingFunction → Bool
  | .Fixed _ => false
  | .Fraction _ => false
  | _ => true

/-- Sizing state of a single grid track or gutter (grid_track.rs `GridTrack`). -/
structure GridTrack where
  kind : GridTrackKind
  is_collapsed : Bool
  min_track_sizing_function : MinTrackSizingFunction
  max_track_sizing_function : MaxTrackSizingFunction
  offset : U
  base_size : U
  growth_limit : U
  content_alignment_adjustment : U
  item_incurred_increase : U
  base_size_planned_increase : U
  growth_limit_planned_increase : U
  infinitely_growable : Bool
deriving DecidableEq, Repr

/-- The all-parameters constructor (grid_track.rs `new_with_kind`). -/
def GridTrack.new_with_kind (kind : GridTrackKind)
    (min_track_sizing_function : MinTrackSizingFunction)
    (max_track_sizing_function : MaxTrackSizingFunction) : GridTrack :=
  ⟨kind, false, min_track_sizing_function, max_track_sizing_function,
   U.zero, U.zero, U.zero, U.zero, U.zero, U.zero, U.zero, false⟩

/-- Constructor for a real track (grid_track.rs `new`). -/
def GridTrack.new (min_track_sizing_function : MinTrackSizingFunction)
    (max_track_sizing_function : MaxTrackSizingFunction) : GridTrack :=
  GridTrack.new_with_kind .Track min_track_sizing_function max_track_sizing_function

/-- Constructor for a gutter (grid_track.rs `gutter`). -/
def GridTrack.gutter (size : LengthPercentage) : GridTrack :=
  GridTrack.new_with_kind .Gutter (.Fixed size) (.Fixed size)

/-- Mark a track as collapsed (grid_track.rs `collapse`): sets the flag and
forces both sizing functions to fixed zero lengths. -/
def GridTrack.collapse (t : GridTrack) : GridTrack :=
  { t with
    is_collapsed := true
    min_track_sizing_function := .Fixed (.Length U.zero)
    max_track_sizing_function := .Fixed (.Length U.zero) }

/-- Whether the track is flexible (grid_track.rs `is_flexible`). -/
def GridTrack.is_flexible (t : GridTrack) : Bool :=
  match t.max_track_sizing_function with
  | .Fraction _ => true
  | _ => false

/-- Whether either sizing function is intrinsic
(grid_track.rs `has_intrinsic_sizing_function`). -/
def GridTrack.has_intrinsic_sizing_function (t : GridTrack) : Bool :=
  t.min_track_sizing_function.is_intrinsic || t.max_track_sizing_function.is_intrinsic

/-- The fit-content cap for this track (grid_track.rs `fit_content_limit`):
a fit-content length limit is itself, a fit-content percentage limit is
that fraction of a definite available space and infinity with an
indefinite one, and every other max sizing function is uncapped. -/
def GridTrack.fit_content_limit (t : GridTrack)
    (axis_available_grid_space : Option U) : U :=
  match t.max_track_sizing_function with
  | .FitContent (.Length limit) => limit
  | .FitContent (.Percent fraction) =>
    match axis_available_grid_space with
    | some space => U.mul space fraction
    | none => U.inf
  | _ => U.inf

/-- The growth limit capped by the fit-content limit
(grid_track.rs `fit_content_limited_growth_limit`). -/
def GridTrack.fit_content_limited_growth_limit (t : GridTrack)
    (axis_available_grid_space : Option U) : U :=
  U.min t.growth_limit (t.fit_content_limit axis_available_grid_space)

/-- The flex factor of the track (grid_track.rs `flex_factor`): the
fraction for a flexible max sizing function, zero otherwise. -/
def GridTrack.flex_factor (t : GridTrack) : U :=
  match t.max_track_sizing_function with
  | .Fraction flex_factor => flex_factor
  | _ => U.zero

/-- The node sizes the leaf resolver works with, as resolved at the top of
compute/leaf.rs `compute` (the `let (node_size, node_min_size,
node_max_size, aspect_ratio) = match sizing_mode` block). -/
structure ResolvedStyleSizes where
  node_size : Size (Option U)
  node_min_size : Size (Option U)
  node_max_size : Size (Option U)
  aspect_ratio : Option U
deriving DecidableEq, Repr

/-- Resolve the preferred, minimum and maximum sizes against the parent
size (compute/leaf.rs lines 52-68): content-size mode pretends the node has
no size styles, inherent-size mode resolves the style sizes (applying the
aspect ratio to the preferred and minimum sizes) and lets known dimensions
win over the style size. -/
def resolve_sizes (style : Style) (known_dimensions parent_size : Size (Option U))
    (sizing_mode : SizingMode) : ResolvedStyleSizes :=
  match sizing_mode with
  | .ContentSize => ⟨known_dimensions, ⟨none, none⟩, ⟨none, none⟩, none⟩
  | .InherentSize =>
    let ar := style.aspect_ratio
    let style_size := (style.size.maybe_resolve parent_size).maybe_apply_aspect_ratio ar
    let style_min_size :=
      (style.min_size.maybe_resolve parent_size).maybe_apply_aspect_ratio ar
    let style_max_size := style.max_size.maybe_resolve parent_size
    ⟨known_dimensions.or style_size, style_min_size, style_max_size, ar⟩

/-- The padding rect of a leaf, with percentages resolved against the
parent's width, also for the vertical edges (compute/leaf.rs line 72). -/
def leaf_padding (style : Style) (parent_size : Size (Option U)) : Rect U :=
  style.padding.resolve_or_zero parent_size.width

/-- The border rect of a leaf, with percentages resolved against the
parent's width, also for the vertical edges (compute/leaf.rs line 73). -/
def leaf_border (style : Style) (parent_size : Size (Option U)) : Rect U :=
  style.border.resolve_or_zero parent_size.width

/-- Scrollbar gutters reserved on the transposed axes (compute/leaf.rs
lines 79-82): a vertically scrolling node reserves horizontal space. -/
def leaf_scrollbar_gutter (style : Style) : Point U :=
  style.overflow.transpose.map fun o =>
    match o with
    | .Scroll => style.scrollbar_width
    | _ => U.zero

/-- Padding plus border, with the scrollbar gutter added to the right and
bottom edges (compute/leaf.rs lines 84-86). -/
def leaf_content_box_inset (style : Style) (parent_size : Size (Option U)) : Rect U :=
  let padding_border := leaf_padding style parent_size + leaf_border style parent_size
  let scrollbar_gutter := leaf_scrollbar_gutter style
  { padding_border with
    right := padding_border.right + scrollbar_gutter.x
    bottom := padding_border.bottom + scrollbar_gutter.y }

/-- Whether any styling prevents margins from collapsing through the node
(compute/leaf.rs lines 93-100): a non-block display, a scroll container on
either axis, absolute positioning, or strictly positive resolved top or
bottom padding or border. -/
def has_styles_preventing_being_collapsed_through (style : Style)
    (padding border : Rect U) : Bool :=
  !(style.display == Display.Block)
  || style.overflow.x.is_scroll_container
  || style.overflow.y.is_scroll_container
  || (style.position == Position.Absolute)
  || U.ltB U.zero padding.top
  || U.ltB U.zero padding.bottom
  || U.ltB U.zero border.top
  || U.ltB U.zero border.bottom

/-- The constrained available space handed to the measure function
(compute/leaf.rs lines 129-142): each axis is pinned by the node size or
max size when present, and a definite amount is clamped to the node's
min/max and reduced by the content-box inset. -/
def leaf_measure_available_space (rs : ResolvedStyleSizes)
    (available_space : Size AvailableSpace) (content_box_inset : Rect U) :
    Size AvailableSpace :=
  ⟨((available_space.width.maybe_set rs.node_size.width).maybe_set
      rs.node_max_size.width).map_definite_value fun size =>
        U.sub (U.maybe_clamp size rs.node_min_size.width rs.node_max_size.width)
          content_box_inset.horizontal_axis_sum,
   ((available_space.height.maybe_set rs.node_size.height).maybe_set
      rs.node_max_size.height).map_definite_value fun size =>
        U.sub (U.maybe_clamp size rs.node_min_size.height rs.node_max_size.height)
          content_box_inset.vertical_axis_sum⟩

/-- Compute the size of a leaf node (compute/leaf.rs `compute`): resolve
the style sizes, padding, border and scrollbar gutter; return early when
both dimensions are known; otherwise measure intrinsic content when a
measure capability is present; otherwise default each unknown axis to the
content-box inset; in every branch clamp to min/max, floor at the
padding-plus-border sums and report the block-layout flags. -/
def compute (style : Style) (measurable : Option Measurable)
    (known_dimensions parent_size : Size (Option U))
    (available_space : Size AvailableSpace) (sizing_mode : SizingMode) :
    SizeBaselinesAndMargins :=
  let rs := resolve_sizes style known_dimensions parent_size sizing_mode
  let padding := leaf_padding style parent_size
  let border := leaf_border style parent_size
  let padding_border := padding + border
  let content_box_inset := leaf_content_box_inset style parent_size
  let prevented := has_styles_preventing_being_collapsed_through style padding border
  match rs.node_size with
  | ⟨some width, some height⟩ =>
    let size := (Size.maybe_clamp ⟨width, height⟩ rs.node_min_size
        rs.node_max_size).maybe_max (padding_border.sum_axes.map some)
    ⟨size, ⟨none, none⟩, CollapsibleMarginSet.zero, CollapsibleMarginSet.zero,
     !prevented && (size.height == U.zero) && measurable.isNone⟩
  | _ =>
    match measurable with
    | some m =>
      let avail := leaf_measure_available_space rs available_space content_box_inset
      let measured_size := m.measure known_dimensions avail
      let clamped_size :=
        (rs.node_size.unwrap_or (measured_size + content_box_inset.sum_axes)).maybe_clamp
          rs.node_min_size rs.node_max_size
      let size : Size U :=
        ⟨clamped_size.width,
         U.max clamped_size.height
           ((rs.aspect_ratio.map fun ratio => U.div clamped_size.width ratio).getD U.zero)⟩
      let size := size.maybe_max (padding_border.sum_axes.map some)
      ⟨size, ⟨none, none⟩, CollapsibleMarginSet.zero, CollapsibleMarginSet.zero,
       !prevented && (size.height == U.zero) && (measured_size.height == U.zero)⟩
    | none =>
      let size : Size U :=
        ⟨U.maybe_max
           (U.maybe_clamp (rs.node_size.width.getD content_box_inset.horizontal_axis_sum)
             rs.node_min_size.width rs.node_max_size.width)
           (some padding_border.horizontal_axis_sum),
         U.maybe_max
           (U.maybe_clamp (rs.node_size.height.getD content_box_inset.vertical_axis_sum)
             rs.node_min_size.height rs.node_max_size.height)
           (some padding_border.vertical_axis_sum)⟩
      let size : Size U :=
        ⟨U.max size.width
           ((rs.aspect_ratio.map fun ratio => U.mul size.height ratio).getD U.zero),
         U.max size.height
           ((rs.aspect_ratio.map fun ratio => U.div size.width ratio).getD U.zero)⟩
      ⟨size, ⟨none, none⟩, CollapsibleMarginSet.zero, CollapsibleMarginSet.zero,
       !prevented && (size.height == U.zero)⟩

/-- Modelled from the spec: the external `LayoutTree` capability (spec
section 6: child enumeration, style access, mutable layout storage) given
as a concrete tree — a style, a stored layout result, and the ordered
children. The hidden-layout pass never reads the style. -/
inductive TreeNode where
  | node : Style → Layout → List TreeNode → TreeNode

/-- The stored layout of a tree node. -/
def TreeNode.layout : TreeNode → Layout
  | .node _ l _ => l

/-- The children of a tree node. -/
def TreeNode.children : TreeNode → List TreeNode
  | .node _ _ cs => cs

mutual

/-- Apply hidden layout to one descendant (compute/mod.rs
`perform_hidden_layout_inner`): overwrite the stored layout with the
zero layout carrying the given order, then recurse into the children,
each child receiving its own index as its order. -/
def hidden_layout_node : TreeNode → ℕ → TreeNode
  | .node s _ cs, order => .node s (Layout.with_order order) (hidden_layout_children cs 0)

/-- Apply hidden layout to a list of siblings, the first one receiving the
given order and each later one the successor (the `for order in
0..tree.child_count(node)` loop of compute/mod.rs). -/
def hidden_layout_children : List TreeNode → ℕ → List TreeNode
  | [], _ => []
  | c :: rest, order => hidden_layout_node c order :: hidden_layout_children rest (order + 1)

end

/-- Hidden layout from a root (compute/mod.rs `perform_hidden_layout`):
the root's own layout is untouched, and each child subtree is laid out
hidden with the child's index as its order. -/
def perform_hidden_layout : TreeNode → TreeNode
  | .node s l cs => .node s l (hidden_layout_children cs 0)

mutual

/-- The hidden-subtree invariant for one descendant that is the `order`-th
child of its parent: its stored layout has zero size, zero location and
order equal to its sibling index, and all of its children satisfy the
invariant in turn. -/
def hidden_subtree_ok : ℕ → TreeNode → Prop
  | order, .node _ l cs =>
    l.size = ⟨U.zero, U.zero⟩ ∧ l.location = ⟨U.zero, U.zero⟩ ∧ l.order = order ∧
      hidden_children_ok 0 cs

/-- The hidden-subtree invariant for a list of siblings whose first member
has sibling index `order`. -/
def hidden_children_ok : ℕ → List TreeNode → Prop
  | _, [] => True
  | order, c :: rest => hidden_subtree_ok order c ∧ hidden_children_ok (order + 1) rest

end

/-- A concrete block-display style with visible overflow, relative
position, automatic sizes, no aspect ratio, and zero padding and border;
the base for the concrete instances below. -/
def plain_block_style : Style :=
  ⟨.Block, ⟨.Visible, .Visible⟩, U.zero, .Relative, ⟨.Auto, .Auto⟩, ⟨.Auto, .Auto⟩,
   ⟨.Auto, .Auto⟩, none,
   ⟨.Length U.zero, .Length U.zero, .Length U.zero, .Length U.zero⟩,
   ⟨.Length U.zero, .Length U.zero, .Length U.zero, .Length U.zero⟩⟩

/-- The spec's empty-leaf scenario style: auto size and a length padding of
ten on all four sides. -/
def scenario_style : Style :=
  { plain_block_style with
    padding := ⟨.Length (U.fin 10), .Length (U.fin 10), .Length (U.fin 10),
                .Length (U.fin 10)⟩ }

/-- A style whose only non-plain feature is an aspect ratio of two. -/
def aspect_style : Style :=
  { plain_block_style with aspect_ratio := some (U.fin 2) }

/-- A style with a twenty-percent padding on all four sides. -/
def percent_padding_style : Style :=
  { plain_block_style with
    padding := ⟨.Percent (U.fin (1 / 5)), .Percent (U.fin (1 / 5)),
                .Percent (U.fin (1 / 5)), .Percent (U.fin (1 / 5))⟩ }

/-- A measure capability whose content always measures to zero size. -/
def zero_measurable : Measurable := ⟨fun _ _ => ⟨U.zero, U.zero⟩⟩

/-- Unfolding lemma for addition on the unit scalar. -/
theorem U.add_fin (a b : ℚ) : U.fin a + U.fin b = U.fin (a + b) := rfl

/-- Unfolding lemma for edge-wise addition of rects. -/
theorem Rect.add_edges (a b : Rect U) :
    a + b = ⟨a.left + b.left, a.right + b.right, a.top + b.top, a.bottom + b.bottom⟩ :=
  rfl

/-- Unfolding lemma for componentwise addition of sizes. -/
theorem Size.add_parts (a b : Size U) :
    a + b = ⟨a.width + b.width, a.height + b.height⟩ :=
  rfl

/-- Taking the maximum with two values in either order gives the same
result. -/
theorem U.max_right_comm (x a b : U) :
    U.max (U.max x a) b = U.max (U.max x b) a := by
  cases x <;> cases a <;> cases b <;> simp [U.max]
  exact sup_right_comm ..

/-- Taking the maximum with the same value twice gives the same result as
taking it once. -/
theorem U.max_right_idem (x a : U) : U.max (U.max x a) a = U.max x a := by
  cases x <;> cases a <;> simp [U.max, max_assoc]

/-- Taking the minimum with two values in either order gives the same
result. -/
theorem U.min_right_comm (x a b : U) :
    U.min (U.min x a) b = U.min (U.min x b) a := by
  cases x <;> cases a <;> cases b <;> simp [U.min] <;>
    first
    | exact inf_right_comm ..
    | exact inf_comm ..

/-- Taking the minimum with the same value twice gives the same result as
taking it once. -/
theorem U.min_right_idem (x a : U) : U.min (U.min x a) a = U.min x a := by
  cases x <;> cases a <;> simp [U.min, min_assoc]

/-- C1: for a track whose max sizing function is fit-content with a percent
limit, `fit_content_limit` is infinity under indefinite available space and
the fraction of the space under definite available space; a fit-content
length limit is returned as is; and every non-fit-content max sizing
function gives infinity. -/
theorem fit_content_limit_spec (t : GridTrack) (fraction limit space : U)
    (avail : Option U) (lp : LengthPercentage) :
    ({ t with max_track_sizing_function := .FitContent (.Percent fraction) } :
        GridTrack).fit_content_limit none = U.inf
    ∧ ({ t with max_track_sizing_function := .FitContent (.Percent fraction) } :
        GridTrack).fit_content_limit (some space) = U.mul space fraction
    ∧ ({ t with max_track_sizing_function := .FitContent (.Length limit) } :
        GridTrack).fit_content_limit avail = limit
    ∧ ({ t with max_track_sizing_function := .Fixed lp } :
        GridTrack).fit_content_limit avail = U.inf
    ∧ ({ t with max_track_sizing_function := .MinContent } :
        GridTrack).fit_content_limit avail = U.inf
    ∧ ({ t with max_track_sizing_function := .MaxContent } :
        GridTrack).fit_content_limit avail = U.inf
    ∧ ({ t with max_track_sizing_function := .Auto } :
        GridTrack).fit_content_limit avail = U.inf
    ∧ ({ t with max_track_sizing_function := .Fraction fraction } :
        GridTrack).fit_content_limit avail = U.inf :=
  ⟨rfl, rfl, rfl, rfl, rfl, rfl, rfl, rfl⟩

/-- C9: after `collapse`, a track is marked collapsed, both its sizing
functions are fixed zero lengths, and consequently its flex factor is zero,
it is not flexible, and it has no intrinsic sizing function. -/
theorem collapse_spec (t : GridTrack) :
    t.collapse.is_collapsed = true
    ∧ t.collapse.min_track_sizing_function = .Fixed (.Length U.zero)
    ∧ t.collapse.max_track_sizing_function = .Fixed (.Length U.zero)
    ∧ t.collapse.flex_factor = U.zero
    ∧ t.collapse.is_flexible = false
    ∧ t.collapse.has_intrinsic_sizing_function = false :=
  ⟨rfl, rfl, rfl, rfl, rfl, rfl⟩

/-- C3: `collapse_with_margin` is commutative and idempotent: collapsing two
margins in either order gives the same set, and collapsing the same margin
twice gives the same set — and hence the same resolved sum — as collapsing
it once. -/
theorem collapse_with_margin_comm_idem (s : CollapsibleMarginSet) (a b : U) :
    (s.collapse_with_margin a).collapse_with_margin b
      = (s.collapse_with_margin b).collapse_with_margin a
    ∧ (s.collapse_with_margin a).collapse_with_margin a = s.collapse_with_margin a
    ∧ ((s.collapse_with_margin a).collapse_with_margin a).resolve
      = (s.collapse_with_margin a).resolve := by
  refine ⟨?_, ?_, ?_⟩
  · cases hA : U.isPositive a <;> cases hB : U.isPositive b <;>
      simp [CollapsibleMarginSet.collapse_with_margin, hA, hB,
        U.max_right_comm, U.min_right_comm]
  · cases hA : U.isPositive a <;>
      simp [CollapsibleMarginSet.collapse_with_margin, hA,
        U.max_right_idem, U.min_right_idem]
  · cases hA : U.isPositive a <;>
      simp [CollapsibleMarginSet.collapse_with_margin, hA,
        U.max_right_idem, U.min_right_idem]

mutual

/-- Hidden layout of a single descendant with sibling index `i`
establishes the hidden-subtree invariant: the stored layout becomes the
zero layout with order `i`, and every child satisfies the invariant. -/
theorem hidden_subtree_ok_of_hidden_layout (t : TreeNode) (i : ℕ) :
    hidden_subtree_ok i (hidden_layout_node t i) :=
  match t with
  | .node _ _ cs => ⟨rfl, rfl, rfl, hidden_children_ok_of_hidden_layout cs 0⟩

/-- Hidden layout of a sibling list starting at sibling index `i`
establishes the invariant for every member. -/
theorem hidden_children_ok_of_hidden_layout (cs : List TreeNode) (i : ℕ) :
    hidden_children_ok i (hidden_layout_children cs i) :=
  match cs with
  | [] => trivial
  | c :: rest =>
    ⟨hidden_subtree_ok_of_hidden_layout c i,
     hidden_children_ok_of_hidden_layout rest (i + 1)⟩

end

/-- C2: after `perform_hidden_layout`, for every tree (whatever the styles
and previous layouts of its nodes), every descendant of the root has its
stored layout set to zero size, zero location, and an order equal to its
index among its siblings, assigned depth-first. -/
theorem perform_hidden_layout_spec (t : TreeNode) :
    hidden_children_ok 0 (perform_hidden_layout t).children :=
  match t with
  | .node _ _ cs => hidden_children_ok_of_hidden_layout cs 0

/-- C4: when both components of the known dimensions are present, leaf
`compute` returns that size clamped to the resolved min/max sizes and
floored at the padding-plus-border axis sums, and the measure function is
never invoked: the result is the same for any two measure capabilities. -/
theorem compute_known_dimensions_spec (style : Style) (measurable : Option Measurable)
    (f g : Measurable) (width height : U) (parent_size : Size (Option U))
    (available_space : Size AvailableSpace) (sizing_mode : SizingMode) :
    (compute style measurable ⟨some width, some height⟩ parent_size available_space
        sizing_mode).size
      = (Size.maybe_clamp ⟨width, height⟩
          (resolve_sizes style ⟨some width, some height⟩ parent_size
            sizing_mode).node_min_size
          (resolve_sizes style ⟨some width, some height⟩ parent_size
            sizing_mode).node_max_size).maybe_max
          ((leaf_padding style parent_size + leaf_border style parent_size).sum_axes.map
            some)
    ∧ compute style (some f) ⟨some width, some height⟩ parent_size available_space
        sizing_mode
      = compute style (some g) ⟨some width, some height⟩ parent_size available_space
        sizing_mode :=
  ⟨by cases sizing_mode <;> rfl, by cases sizing_mode <;> rfl⟩

/-- C8: under content-size mode, leaf `compute` ignores the node's size
styles: changing the size, min size, max size and aspect-ratio style fields
leaves the result unchanged. -/
theorem content_size_ignores_size_styles (style : Style) (s2 m2 M2 : Size Dimension)
    (a2 : Option U) (measurable : Option Measurable)
    (known_dimensions parent_size : Size (Option U))
    (available_space : Size AvailableSpace) :
    compute { style with size := s2, min_size := m2, max_size := M2, aspect_ratio := a2 }
        measurable known_dimensions parent_size available_space .ContentSize
      = compute style measurable known_dimensions parent_size available_space
          .ContentSize :=
  rfl

/-- C10: on every branch, leaf `compute` reports no baselines in either
axis and empty top and bottom collapsible margin sets. -/
theorem compute_block_fields_spec (style : Style) (measurable : Option Measurable)
    (known_dimensions parent_size : Size (Option U))
    (available_space : Size AvailableSpace) (sizing_mode : SizingMode) :
    (compute style measurable known_dimensions parent_size available_space
        sizing_mode).first_baselines = ⟨none, none⟩
    ∧ (compute style measurable known_dimensions parent_size available_space
        sizing_mode).top_margin = CollapsibleMarginSet.zero
    ∧ (compute style measurable known_dimensions parent_size available_space
        sizing_mode).bottom_margin = CollapsibleMarginSet.zero := by
  have h : ∃ s b,
      compute style measurable known_dimensions parent_size available_space sizing_mode
        = ⟨s, ⟨none, none⟩, CollapsibleMarginSet.zero, CollapsibleMarginSet.zero, b⟩ := by
    simp only [compute]
    split
    · exact ⟨_, _, rfl⟩
    · split
      · exact ⟨_, _, rfl⟩
      · exact ⟨_, _, rfl⟩
  obtain ⟨s, b, h⟩ := h
  rw [h]
  exact ⟨rfl, rfl, rfl⟩

/-- C6: the padding and border rects of a leaf are resolved against the
parent's width only — two parent sizes agreeing on width give identical
rects — and a percent padding resolves every edge, the vertical ones
included, to that fraction of the parent's width. -/
theorem resolved_rects_independent_of_parent_height (style : Style)
    (ps1 ps2 : Size (Option U)) (h : ps1.width = ps2.width) :
    leaf_padding style ps1 = leaf_padding style ps2
    ∧ leaf_border style ps1 = leaf_border style ps2
    ∧ ∀ p w,
        leaf_padding
            { style with padding := ⟨.Percent p, .Percent p, .Percent p, .Percent p⟩ }
            ⟨some w, ps1.height⟩
          = ⟨U.mul w p, U.mul w p, U.mul w p, U.mul w p⟩ := by
  refine ⟨?_, ?_, fun p w => rfl⟩
  · unfold leaf_padding
    rw [h]
  · unfold leaf_border
    rw [h]

/-- Witness for C6: two concrete parent sizes sharing a width of a hundred
but with different heights yield the same resolved padding rect for a
percent padding. -/
theorem resolved_rects_independent_of_parent_height_witness :
    ((⟨some (U.fin 100), some (U.fin 50)⟩ : Size (Option U)).width
      = (⟨some (U.fin 100), some (U.fin 7)⟩ : Size (Option U)).width)
    ∧ leaf_padding percent_padding_style ⟨some (U.fin 100), some (U.fin 50)⟩
        = leaf_padding percent_padding_style ⟨some (U.fin 100), some (U.fin 7)⟩ :=
  ⟨rfl,
   (resolved_rects_independent_of_parent_height percent_padding_style
     ⟨some (U.fin 100), some (U.fin 50)⟩ ⟨some (U.fin 100), some (U.fin 7)⟩ rfl).1⟩

/-- C5 (amended): for a leaf with no measure capability, when no aspect
ratio is in effect, an axis with no known or style-specified size resolves
to the content-box inset sum for that axis, clamped to the resolved
min/max, floored at the padding-plus-border sum, and finally floored at
zero (the aspect-ratio step of the source takes a maximum with zero when no
ratio is present). -/
theorem compute_no_content_axis_spec (style : Style) (kd ps : Size (Option U))
    (av : Size AvailableSpace) (mode : SizingMode)
    (h_ratio : (resolve_sizes style kd ps mode).aspect_ratio = none) :
    ((resolve_sizes style kd ps mode).node_size.width = none →
      (compute style none kd ps av mode).size.width
        = U.max
            (U.maybe_max
              (U.maybe_clamp (leaf_content_box_inset style ps).horizontal_axis_sum
                (resolve_sizes style kd ps mode).node_min_size.width
                (resolve_sizes style kd ps mode).node_max_size.width)
              (some (leaf_padding style ps + leaf_border style ps).horizontal_axis_sum))
            U.zero)
    ∧ ((resolve_sizes style kd ps mode).node_size.height = none →
      (compute style none kd ps av mode).size.height
        = U.max
            (U.maybe_max
              (U.maybe_clamp (leaf_content_box_inset style ps).vertical_axis_sum
                (resolve_sizes style kd ps mode).node_min_size.height
                (resolve_sizes style kd ps mode).node_max_size.height)
              (some (leaf_padding style ps + leaf_border style ps).vertical_axis_sum))
            U.zero) := by
  rcases hrs : resolve_sizes style kd ps mode with ⟨⟨nw, nh⟩, nmin, nmax, ar⟩
  rw [hrs] at h_ratio
  replace h_ratio : ar = none := h_ratio
  subst h_ratio
  constructor
  · intro hw
    replace hw : nw = none := hw
    subst hw
    simp only [compute]
    rw [hrs]
    cases nh <;> rfl
  · intro hh
    replace hh : nh = none := hh
    subst hh
    simp only [compute]
    rw [hrs]
    cases nw <;> rfl

/-- Witness for C5: the spec's scenario — an auto-by-auto leaf with no
content, a length padding of ten on all sides, under definite available
space of three hundred per axis — resolves to the twenty-by-twenty
border-box floor, through the amended theorem. -/
theorem compute_no_content_axis_spec_witness :
    (resolve_sizes scenario_style ⟨none, none⟩ ⟨some (U.fin 300), some (U.fin 300)⟩
        .InherentSize).aspect_ratio = none
    ∧ (resolve_sizes scenario_style ⟨none, none⟩ ⟨some (U.fin 300), some (U.fin 300)⟩
        .InherentSize).node_size.width = none
    ∧ (compute scenario_style none ⟨none, none⟩ ⟨some (U.fin 300), some (U.fin 300)⟩
        ⟨.Definite (U.fin 300), .Definite (U.fin 300)⟩ .InherentSize).size
      = ⟨U.fin 20, U.fin 20⟩ := by
  have h := compute_no_content_axis_spec scenario_style ⟨none, none⟩
    ⟨some (U.fin 300), some (U.fin 300)⟩
    ⟨.Definite (U.fin 300), .Definite (U.fin 300)⟩ .InherentSize rfl
  have hw := h.1 rfl
  have hh := h.2 rfl
  refine ⟨rfl, rfl, ?_⟩
  have hsz : (compute scenario_style none ⟨none, none⟩
      ⟨some (U.fin 300), some (U.fin 300)⟩
      ⟨.Definite (U.fin 300), .Definite (U.fin 300)⟩ .InherentSize).size
      = ⟨(compute scenario_style none ⟨none, none⟩
          ⟨some (U.fin 300), some (U.fin 300)⟩
          ⟨.Definite (U.fin 300), .Definite (U.fin 300)⟩ .InherentSize).size.width,
         (compute scenario_style none ⟨none, none⟩
          ⟨some (U.fin 300), some (U.fin 300)⟩
          ⟨.Definite (U.fin 300), .Definite (U.fin 300)⟩ .InherentSize).size.height⟩ :=
    rfl
  rw [hsz, hw, hh]
  norm_num [resolve_sizes, scenario_style, plain_block_style, Size.maybe_resolve,
    Dimension.maybe_resolve, Size.maybe_apply_aspect_ratio, Size.or, leaf_padding,
    leaf_border, leaf_scrollbar_gutter, leaf_content_box_inset, Rect.resolve_or_zero,
    LengthPercentage.resolve_or_zero, Rect.horizontal_axis_sum, Rect.vertical_axis_sum,
    Rect.add_edges, U.add_fin, Point.transpose, Point.map, U.maybe_clamp, U.maybe_max,
    U.max, U.min, U.zero]

/-- Counterexample for C5 as frozen: with an aspect ratio of two and a
known height of ten, the width axis has no known or style-specified size,
the claim's formula (content-box inset clamped and floored at the
padding-plus-border sum) gives zero, yet `compute` returns twenty — the
aspect-ratio step overrides the inset default. -/
theorem compute_no_content_axis_claim_counterexample :
    (resolve_sizes aspect_style ⟨none, some (U.fin 10)⟩ ⟨none, none⟩
        .InherentSize).node_size.width = none
    ∧ U.maybe_max
        (U.maybe_clamp (leaf_content_box_inset aspect_style ⟨none, none⟩).horizontal_axis_sum
          (resolve_sizes aspect_style ⟨none, some (U.fin 10)⟩ ⟨none, none⟩
            .InherentSize).node_min_size.width
          (resolve_sizes aspect_style ⟨none, some (U.fin 10)⟩ ⟨none, none⟩
            .InherentSize).node_max_size.width)
        (some (leaf_padding aspect_style ⟨none, none⟩
          + leaf_border aspect_style ⟨none, none⟩).horizontal_axis_sum)
      = U.zero
    ∧ (compute aspect_style none ⟨none, some (U.fin 10)⟩ ⟨none, none⟩
        ⟨.MaxContent, .MaxContent⟩ .InherentSize).size.width = U.fin 20
    ∧ (compute aspect_style none ⟨none, some (U.fin 10)⟩ ⟨none, none⟩
        ⟨.MaxContent, .MaxContent⟩ .InherentSize).size.width ≠ U.zero := by
  refine ⟨rfl, ?_, ?_, ?_⟩ <;>
    norm_num [compute, resolve_sizes, aspect_style, plain_block_style, Size.maybe_resolve,
      Dimension.maybe_resolve, Size.maybe_apply_aspect_ratio, Size.or, leaf_padding,
      leaf_border, leaf_scrollbar_gutter, leaf_content_box_inset, Rect.resolve_or_zero,
      LengthPercentage.resolve_or_zero, Rect.horizontal_axis_sum, Rect.vertical_axis_sum,
      Rect.sum_axes, Rect.add_edges, Size.add_parts, U.add_fin, Point.transpose, Point.map,
      U.maybe_clamp, U.maybe_max, U.max, U.min, U.zero, U.mul, U.div,
      Size.unwrap_or, Size.maybe_clamp, Size.maybe_max, Size.map,
      has_styles_preventing_being_collapsed_through, U.ltB]

/-- The styling predicate of the leaf resolver is false exactly when the
display is block, neither overflow axis is a scroll container, the position
is not absolute, and no resolved top or bottom padding or border is
strictly positive. -/
theorem has_styles_preventing_false_iff (style : Style) (padding border : Rect U) :
    has_styles_preventing_being_collapsed_through style padding border = false
      ↔ style.display = .Block
        ∧ style.overflow.x.is_scroll_container = false
        ∧ style.overflow.y.is_scroll_container = false
        ∧ style.position ≠ .Absolute
        ∧ U.ltB U.zero padding.top = false
        ∧ U.ltB U.zero padding.bottom = false
        ∧ U.ltB U.zero border.top = false
        ∧ U.ltB U.zero border.bottom = false := by
  simp [has_styles_preventing_being_collapsed_through, Bool.or_eq_false_iff,
    Bool.not_eq_true', beq_iff_eq, beq_eq_false_iff_ne, and_assoc]

/-- C7 (amended): the collapse-through flag reported by leaf `compute` is
true exactly when no styling prevents it (block display, no scroll
container on either axis, not absolutely positioned, no strictly positive
resolved top or bottom padding or border), the resolved height is exactly
zero, and — when a measure capability is present — the node size is not
already fully known and the measured height at the constrained available
space is zero. In particular, with both dimensions known, the mere
presence of a measure capability makes the flag false. -/
theorem margins_can_collapse_through_spec (style : Style) (measurable : Option Measurable)
    (known_dimensions parent_size : Size (Option U))
    (available_space : Size AvailableSpace) (sizing_mode : SizingMode) :
    (compute style measurable known_dimensions parent_size available_space
        sizing_mode).margins_can_collapse_through = true
      ↔ (style.display = .Block
          ∧ style.overflow.x.is_scroll_container = false
          ∧ style.overflow.y.is_scroll_container = false
          ∧ style.position ≠ .Absolute
          ∧ U.ltB U.zero (leaf_padding style parent_size).top = false
          ∧ U.ltB U.zero (leaf_padding style parent_size).bottom = false
          ∧ U.ltB U.zero (leaf_border style parent_size).top = false
          ∧ U.ltB U.zero (leaf_border style parent_size).bottom = false)
        ∧ (compute style measurable known_dimensions parent_size available_space
            sizing_mode).size.height = U.zero
        ∧ (match measurable with
           | none => True
           | some m =>
             ((resolve_sizes style known_dimensions parent_size
                  sizing_mode).node_size.width = none
               ∨ (resolve_sizes style known_dimensions parent_size
                  sizing_mode).node_size.height = none)
             ∧ (m.measure known_dimensions
                 (leaf_measure_available_space
                   (resolve_sizes style known_dimensions parent_size sizing_mode)
                   available_space (leaf_content_box_inset style parent_size))).height
               = U.zero) := by
  rw [← has_styles_preventing_false_iff style (leaf_padding style parent_size)
    (leaf_border style parent_size)]
  rcases hrs : resolve_sizes style known_dimensions parent_size sizing_mode with
    ⟨⟨nw, nh⟩, nmin, nmax, ar⟩
  simp only [compute]
  rw [hrs]
  rcases measurable with _ | m <;> rcases nw with _ | w <;> rcases nh with _ | h <;>
    simp [Bool.and_eq_true, Bool.not_eq_true', beq_iff_eq, and_assoc]

/-- Counterexample for C7 as frozen: a plain block leaf with a measure
capability that measures to zero size and with both dimensions known to be
zero — no styling prevents collapsing, the resolved height is zero and the
measured height is zero, yet the flag is false, because on the
fully-known-size path the mere presence of a measure capability disables
collapsing through. -/
theorem margins_can_collapse_through_claim_counterexample :
    (compute plain_block_style (some zero_measurable) ⟨some U.zero, some U.zero⟩
        ⟨none, none⟩ ⟨.MaxContent, .MaxContent⟩
        .InherentSize).margins_can_collapse_through = false
    ∧ plain_block_style.display = .Block
    ∧ plain_block_style.overflow.x.is_scroll_container = false
    ∧ plain_block_style.overflow.y.is_scroll_container = false
    ∧ plain_block_style.position ≠ .Absolute
    ∧ leaf_padding plain_block_style ⟨none, none⟩ = ⟨U.zero, U.zero, U.zero, U.zero⟩
    ∧ leaf_border plain_block_style ⟨none, none⟩ = ⟨U.zero, U.zero, U.zero, U.zero⟩
    ∧ (compute plain_block_style (some zero_measurable) ⟨some U.zero, some U.zero⟩
        ⟨none, none⟩ ⟨.MaxContent, .MaxContent⟩ .InherentSize).size.height = U.zero
    ∧ (zero_measurable.measure ⟨some U.zero, some U.zero⟩
        (leaf_measure_available_space
          (resolve_sizes plain_block_style ⟨some U.zero, some U.zero⟩ ⟨none, none⟩
            .InherentSize)
          ⟨.MaxContent, .MaxContent⟩
          (leaf_content_box_inset plain_block_style ⟨none, none⟩))).height = U.zero := by
  refine ⟨?_, rfl, rfl, rfl, by simp [plain_block_style], rfl, rfl, ?_, rfl⟩ <;>
    norm_num [compute, resolve_sizes, plain_block_style, zero_measurable,
      Size.maybe_resolve, Dimension.maybe_resolve, Size.maybe_apply_aspect_ratio,
      Size.or, leaf_padding, leaf_border, leaf_scrollbar_gutter, leaf_content_box_inset,
      Rect.resolve_or_zero, LengthPercentage.resolve_or_zero, Rect.horizontal_axis_sum,
      Rect.vertical_axis_sum, Rect.sum_axes, Rect.add_edges, Size.add_parts, U.add_fin,
      Point.transpose, Point.map, U.maybe_clamp, U.maybe_max, U.max, U.min, U.zero,
      U.ltB, Size.maybe_clamp, Size.maybe_max, Size.map,
      has_styles_preventing_being_collapsed_through]

end Taffy
